import Mathlib

/-!
Verification of the MandarinOS-core trace conformance checker.

The data model follows the TypeScript type declarations in
`integration_kit/ts_exporter_snippets/trace_exporter.ts` (interfaces
`TurnState`, `Option`, `Hint`, `TraceEvent`) and the executable checks in
`integration_kit/ts_exporter_snippets/capture_helpers.ts`
(`buildAffordances`, `validateOptionStructure`, `validateHintStructure`,
`validateForwardPath`).  TypeScript optional fields become `Option` values
or lists (an absent array and an empty array behave identically in every
check of the source, both being falsy/length-0); JavaScript record objects
become association lists; JavaScript truthiness of a string value (absent
or empty string is falsy) is made explicit where the source relies on it.

The gate pipeline itself (`conformance/run_trace_conformance.py`) is not
part of the sources available here — only its documentation
(`docs/TRACE_CONTRACT_v1.md`, `integration_kit/README.md`), its shell
launcher (`scripts/validate_traces.sh`) and the capture-side validators
exist — so the five gates, the schema stage and the batch aggregation are
modelled from the spec, reusing the capture-side validators for the
per-state predicates they share.

The card-panel reducer is embedded from `ui/state/cardPanelState.js`.
-/

/-! ## Trace document model (from trace_exporter.ts) -/

/-- Scaffolding level enum: "HIGH" | "MED" | "LOW". -/
inductive ScaffoldingLevel where
  | HIGH
  | MED
  | LOW
deriving DecidableEq, Repr

/-- Input mode enum: "TAP" | "TYPE". -/
inductive InputMode where
  | TAP
  | TYPE
deriving DecidableEq, Repr

/-- Event type enum (`TraceEventType` in trace_exporter.ts). -/
inductive EventType where
  | USER_SELECT_OPTION
  | USER_FILL_SLOT
  | USER_UNCERTAIN
  | OPEN_HINT
  | ADVANCE_HINT
  | TOGGLE_INPUT_MODE
  | SYSTEM_REPROMPT
  | SYSTEM_NARROW
  | SYSTEM_MODEL
  | SYSTEM_STRUCTURE
  | END_TURN
deriving DecidableEq, Repr

/-- One token of an option's token sequence
(`tokens?: Array of token/type/slot` in trace_exporter.ts). -/
structure Token where
  token : String
  type : String
  slot : Option String
deriving DecidableEq, Repr

/-- An option record (interface `Option` in trace_exporter.ts; named
`TraceOption` here because `Option` is taken by the Lean prelude).
Optional arrays/records are modelled as lists, absent meaning empty —
every source check only asks for truthiness together with length or
key count, which agree on that identification.  The optional
`text_zh`/`text_en` display strings carry no gate-relevant content and
are kept as optional strings. -/
structure TraceOption where
  option_id : String
  option_kind : Option String
  text_zh : Option String
  text_en : Option String
  frame_id : Option String
  required_slots : List String
  tokens : List Token
  slot_selectors : List (String × List String)
deriving DecidableEq, Repr

/-- The `effects` sub-record of a hint payload is a JavaScript record;
modelled as an optional association list of keys (values are opaque,
only key presence is ever inspected). -/
structure HintPayload where
  effects : Option (List (String × Bool))
deriving DecidableEq, Repr

/-- Hint record (interface `Hint` in trace_exporter.ts). -/
structure Hint where
  available : Bool
  step : Option Nat
  cascade_state_key : Option String
  payload : Option HintPayload
deriving DecidableEq, Repr

/-- The `slots` summary of a TurnState. -/
structure Slots where
  required : List String
  filled : List (String × String)
  selectors_present : List String
deriving DecidableEq, Repr

/-- Diagnostic mode enum: "conversation" | "diagnostic". -/
inductive DiagnosticMode where
  | conversation
  | diagnostic
deriving DecidableEq, Repr

/-- Confidence enum: "HIGH" | "MED" | "LOW" | null. -/
inductive ConfidenceLevel where
  | HIGH
  | MED
  | LOW
deriving DecidableEq, Repr

/-- Diagnostic record of a TurnState. -/
structure Diagnostic where
  mode : DiagnosticMode
  confidence : Option ConfidenceLevel
deriving DecidableEq, Repr

/-- TurnState snapshot (interface `TurnState` in trace_exporter.ts). -/
structure TurnState where
  turn_id : String
  scaffolding_level : ScaffoldingLevel
  input_mode : InputMode
  affordances : List String
  options : List TraceOption
  hints : Option Hint
  slots : Slots
  diagnostic : Diagnostic
deriving DecidableEq, Repr

/-- The triggering event of a step (interface `TraceEvent`).  The
free-form payload is modelled as a string association list; no gate
inspects it. -/
structure TraceEvent where
  type : EventType
  timestamp : String
  payload : List (String × String)
deriving DecidableEq, Repr

/-- One step of a trace (shape pushed by `TraceBuilder.step`). -/
structure TraceStep where
  step_id : String
  event : TraceEvent
  before : TurnState
  after : TurnState
  notes : Option String
deriving DecidableEq, Repr

/-- A trace document (shape built by the `TraceBuilder` constructor;
provenance fields that no gate reads are kept as plain strings). -/
structure TraceDocument where
  trace_version : String
  trace_id : String
  created_at : String
  locale : String
  steps : List TraceStep
deriving DecidableEq, Repr

/-! ## Capture-side validators (from capture_helpers.ts) -/

/-- JavaScript truthiness of `filled[r]` for a string-valued record:
true exactly when the key is present with a non-empty value. -/
def filledLookup (filled : List (String × String)) (r : String) : Bool :=
  match filled.lookup r with
  | some v => v != ""
  | none => false

/-- Result shape of `validateOptionStructure` / `validateHintStructure`. -/
structure ValidationResult where
  valid : Bool
  reason : Option String
deriving DecidableEq, Repr

/-- Result shape of `validateForwardPath`. -/
structure ForwardPathResult where
  hasPath : Bool
  reason : Option String
deriving DecidableEq, Repr

/-- `buildAffordances` input shape. -/
structure AffordanceConfig where
  hasOptions : Bool
  hasHints : Bool
  inputMode : InputMode
  canRequestHelp : Bool
deriving DecidableEq, Repr

/-- Embedding of `buildAffordances` (capture_helpers.ts):
starts from `what_can_i_say` and pushes `open_hint`,
`select_option`, `submit_response` under the source's conditions;
the `canRequestHelp` branch of the source has an empty body. -/
def buildAffordances (config : AffordanceConfig) : List String :=
  ["what_can_i_say"]
    ++ (if config.hasHints then ["open_hint"] else [])
    ++ (if config.inputMode = InputMode.TAP ∧ config.hasOptions then
          ["select_option"] else [])
    ++ (if config.inputMode = InputMode.TYPE then ["submit_response"] else [])

/-- Embedding of `validateOptionStructure` (capture_helpers.ts); the
source's local consts `hasTokens` and `hasSelectors` are inlined. -/
def validateOptionStructure (o : TraceOption) : ValidationResult :=
  if o.required_slots.isEmpty then
    { valid := true, reason := none }
  else if !(!o.tokens.isEmpty) && !(!o.slot_selectors.isEmpty) then
    { valid := false
      reason := some ("Option " ++ o.option_id ++
        " has required_slots but no tokens or slot_selectors (flattened!)") }
  else
    { valid := true, reason := none }

/-- Embedding of `validateHintStructure` (capture_helpers.ts).
The source takes `hint: any` which may be null; a null or unavailable
hint is vacuously valid. -/
def validateHintStructure (hint : Option Hint) : ValidationResult :=
  match hint with
  | none => { valid := true, reason := none }
  | some h =>
    if !h.available then
      { valid := true, reason := none }
    else
      match h.payload with
      | none =>
        { valid := false, reason := some "Hint is available but payload is missing" }
      | some p =>
        match p.effects with
        | none =>
          { valid := false, reason := some "Hint payload missing effects block" }
        | some eff =>
          if eff.isEmpty then
            { valid := false, reason := some "Hint payload missing effects block" }
          else
            { valid := true, reason := none }

/-- JavaScript truthiness of `state.hints && state.hints.available`. -/
def hintsAvailable (s : TurnState) : Bool :=
  match s.hints with
  | some h => h.available
  | none => false

/-- Embedding of `validateForwardPath` (capture_helpers.ts): the three
forward paths are tried in the source's order; the source's local consts
`unfilled` and `hasSelectors` are inlined into the second condition. -/
def validateForwardPath (state : TurnState) : ForwardPathResult :=
  if !state.options.isEmpty then
    { hasPath := true, reason := none }
  else if !state.slots.required.isEmpty &&
      (state.slots.required.filter
        (fun r => !filledLookup state.slots.filled r)).any
        (fun u => state.slots.selectors_present.contains u) then
    { hasPath := true, reason := none }
  else if hintsAvailable state && state.affordances.contains "open_hint" then
    { hasPath := true, reason := none }
  else
    { hasPath := false, reason := some "No options, no slot selectors, no hint" }

/-! ## Invariant gate pipeline

Modelled from the spec: the semantic gates live in
`conformance/run_trace_conformance.py`, which is not among the available
sources; only its documentation, launcher scripts and the capture-side
validators are.  Each gate is a pure function from a decoded document to a
list of violations, per spec section 4.3, reusing the capture-side
validators above for the per-state predicates. -/

/-- A reported violation: a stable code string, tagged with the offending
step id (for semantic gates) or the path of the first offending field
(for the schema gate). -/
structure Violation where
  code : String
  tag : Option String
deriving DecidableEq, Repr

/-- Modelled from the spec: Gate A (forward-path guarantee) checks the
`after` state of every step with the capture-side forward-path predicate
and emits `DEAD_STATE_NO_FORWARD_PATH` tagged with the step id when no
forward path exists. -/
def gateA (doc : TraceDocument) : List Violation :=
  doc.steps.filterMap (fun st =>
    if (validateForwardPath st.after).hasPath then none
    else some { code := "DEAD_STATE_NO_FORWARD_PATH", tag := some st.step_id })

/-- Modelled from the spec: the per-step pass condition of Gate B —
`what_can_i_say` present in both states' affordances, and `open_hint`
present after when hints were available before. -/
def toggleCheck (st : TraceStep) : Bool :=
  st.before.affordances.contains "what_can_i_say" &&
  st.after.affordances.contains "what_can_i_say" &&
  (!hintsAvailable st.before || st.after.affordances.contains "open_hint")

/-- Modelled from the spec: Gate B (modality-toggle affordance
preservation) checks every `TOGGLE_INPUT_MODE` step and emits
`TOGGLE_AFFORDANCE_DROP` tagged with the step id on violation. -/
def gateB (doc : TraceDocument) : List Violation :=
  doc.steps.filterMap (fun st =>
    if st.event.type = EventType.TOGGLE_INPUT_MODE ∧ ¬toggleCheck st then
      some { code := "TOGGLE_AFFORDANCE_DROP", tag := some st.step_id }
    else none)

/-- Rank of a scaffolding level on the HIGH > MED > LOW axis. -/
def scaffoldRank : ScaffoldingLevel → Nat
  | ScaffoldingLevel.HIGH => 2
  | ScaffoldingLevel.MED => 1
  | ScaffoldingLevel.LOW => 0

/-- A step narrows scaffolding when the after level is strictly lower. -/
def narrowsScaffolding (st : TraceStep) : Bool :=
  scaffoldRank st.after.scaffolding_level < scaffoldRank st.before.scaffolding_level

/-- Modelled from the spec: the body of Gate C, threading a flag for
whether a user-uncertainty signal has been seen earlier in the document. -/
def gateCAux (seenUncertain : Bool) : List TraceStep → List Violation
  | [] => []
  | st :: rest =>
    let here :=
      if narrowsScaffolding st then
        if st.after.affordances.contains "what_can_i_say" &&
           (!(seenUncertain && hintsAvailable st.before) ||
            st.after.affordances.contains "open_hint") then []
        else [{ code := "SCAFFOLDING_AFFORDANCE_DROP", tag := some st.step_id }]
      else []
    here ++ gateCAux (seenUncertain || st.event.type == EventType.USER_UNCERTAIN) rest

/-- Modelled from the spec: Gate C (scaffolding non-amputation) — a
narrowing step must keep `what_can_i_say`, and `open_hint` too when the
narrowing was preceded by a user-uncertainty signal and hints were
available before; violation code `SCAFFOLDING_AFFORDANCE_DROP`. -/
def gateC (doc : TraceDocument) : List Violation :=
  gateCAux false doc.steps

/-- Modelled from the spec: the hint-cascade monotonicity part of Gate D,
over consecutive steps sharing a `cascade_state_key` — a decreasing
cascade step index yields `HINT_NON_ACTIONABLE`. -/
def cascadeViolations : List TraceStep → List Violation
  | [] => []
  | [_] => []
  | a :: b :: rest =>
    (match a.after.hints, b.after.hints with
     | some h1, some h2 =>
       (match h1.cascade_state_key, h2.cascade_state_key, h1.step, h2.step with
        | some k1, some k2, some i1, some i2 =>
          if k1 = k2 ∧ i2 < i1 then
            [{ code := "HINT_NON_ACTIONABLE", tag := some b.step_id }]
          else []
        | _, _, _, _ => [])
     | _, _ => []) ++ cascadeViolations (b :: rest)

/-- Modelled from the spec: the `TEACHER_SINGLE_ANSWER` part of Gate D.
The spec leaves the authoritative-correction flag's exact shape open; the
documented assumption here is an `option_kind` of `TEACHER_CORRECTION` on
the lone remaining option of a hint step. -/
def teacherCheck (st : TraceStep) : List Violation :=
  if st.event.type = EventType.OPEN_HINT ∨ st.event.type = EventType.ADVANCE_HINT then
    match st.after.options with
    | [o] =>
      if o.option_kind = some "TEACHER_CORRECTION" then
        [{ code := "TEACHER_SINGLE_ANSWER", tag := some st.step_id }]
      else []
    | _ => []
  else []

/-- Modelled from the spec: Gate D (hint actionability).  The effects
check applies the capture-side `validateHintStructure` to the before and
the after state of every step, emitting `HINT_NO_EFFECTS_BLOCK`; the
cascade and teacher checks follow. -/
def gateD (doc : TraceDocument) : List Violation :=
  (doc.steps.map (fun st =>
    (if (validateHintStructure st.before.hints).valid then []
     else [{ code := "HINT_NO_EFFECTS_BLOCK", tag := some st.step_id }]) ++
    (if (validateHintStructure st.after.hints).valid then []
     else [{ code := "HINT_NO_EFFECTS_BLOCK", tag := some st.step_id }]))).flatten
  ++ cascadeViolations doc.steps
  ++ (doc.steps.map teacherCheck).flatten

/-- Modelled from the spec: a required slot name is executable in a state
when it is in the `selectors_present` set directly or is covered by some
option's slot-selector map. -/
def slotExecutable (s : TurnState) (r : String) : Bool :=
  s.slots.selectors_present.contains r ||
  s.options.any (fun o => (o.slot_selectors.map Prod.fst).contains r)

/-- Modelled from the spec: the flattening half of Gate E on one state —
each option failing the capture-side `validateOptionStructure` yields
`CONTRACT_OPTION_FLATTENED`. -/
def stateOptionViolations (stepId : String) (s : TurnState) : List Violation :=
  s.options.filterMap (fun o =>
    if (validateOptionStructure o).valid then none
    else some { code := "CONTRACT_OPTION_FLATTENED", tag := some stepId })

/-- Modelled from the spec and TRACE_CONTRACT_v1.md: the slot-executability
half of Gate E on one state.  The contract document names this code
`CONTRACT_SLOT_UNEXECUTABLE` (Gate 6: "Errors: CONTRACT_OPTION_FLATTENED,
CONTRACT_SLOT_UNEXECUTABLE"; scenario S5: "Error code:
CONTRACT_SLOT_UNEXECUTABLE"); the integration-kit README's error table
lists it abbreviated as `SLOT_UNEXECUTABLE`. -/
def stateSlotViolations (stepId : String) (s : TurnState) : List Violation :=
  s.slots.required.filterMap (fun r =>
    if !filledLookup s.slots.filled r && !slotExecutable s r then
      some { code := "CONTRACT_SLOT_UNEXECUTABLE", tag := some stepId }
    else none)

/-- Modelled from the spec: Gate E (no silent flattening) runs both halves
on the before and the after state of every step. -/
def gateE (doc : TraceDocument) : List Violation :=
  (doc.steps.map (fun st =>
    stateOptionViolations st.step_id st.before ++
    stateOptionViolations st.step_id st.after ++
    stateSlotViolations st.step_id st.before ++
    stateSlotViolations st.step_id st.after)).flatten

/-- Modelled from the spec: a raw input document either decodes into the
trace document model or fails structurally, carrying the path to the
first offending field. -/
inductive RawDoc where
  | wellFormed (doc : TraceDocument)
  | malformed (firstOffendingPath : String)
deriving DecidableEq, Repr

/-- Modelled from the spec: the schema validator returns either a typed
TraceDocument or the path of the first offending field. -/
def schemaValidate : RawDoc → Except String TraceDocument
  | RawDoc.wellFormed d => Except.ok d
  | RawDoc.malformed p => Except.error p

/-- Modelled from the spec: all five semantic gates are evaluated
unconditionally on a decoded document and their violations concatenated. -/
def runGates (d : TraceDocument) : List Violation :=
  gateA d ++ gateB d ++ gateC d ++ gateD d ++ gateE d

/-- Modelled from the spec: the per-document pipeline — the schema gate
always runs first; on failure the document is reported with only
`TRACE_SCHEMA_INVALID` (carrying the offending path) and no semantic gate
runs; otherwise all five gates run. -/
def runPipeline (raw : RawDoc) : List Violation :=
  match schemaValidate raw with
  | Except.error p => [{ code := "TRACE_SCHEMA_INVALID", tag := some p }]
  | Except.ok d => runGates d

/-- Modelled from the spec: the batch runner maps the pipeline over the
documents of a directory, each independently. -/
def batchReport (docs : List RawDoc) : List (List Violation) :=
  docs.map runPipeline

/-- Modelled from the spec and TRACE_CONTRACT_v1.md: the conformance
runner's process exit status — 0 when every document passes every gate,
1 otherwise. -/
def runTraceConformanceExit (docs : List RawDoc) : Nat :=
  if docs.all (fun d => (runPipeline d).isEmpty) then 0 else 1

/-- Embedding of `scripts/validate_traces.sh`: after locating the runner
the script invokes it and exits with the runner's exit code (under
`set -e` a failing runner aborts the script with that same status). -/
def validateTracesExit (docs : List RawDoc) : Nat :=
  runTraceConformanceExit docs

/-! ## Card panel reducer (from ui/state/cardPanelState.js) -/

/-- JavaScript truthiness of a nullable string: non-null and non-empty. -/
def jsTruthyStr (o : Option String) : Bool :=
  match o with
  | some s => s != ""
  | none => false

/-- A nullable-string expression of the form `x || null`: an empty string
collapses to null. -/
def jsOrNull (o : Option String) : Option String :=
  match o with
  | some s => if s = "" then none else some s
  | none => none

/-- A resolved card payload; the reducer stores it opaquely. -/
structure Card where
  id : String
  title : Option String
deriving DecidableEq, Repr

/-- The error payload of a failed card resolution. -/
structure PanelError where
  kind : String
  message : Option String
deriving DecidableEq, Repr

/-- The `panelOptions` record set by an OPTIONS_AVAILABLE trace event;
the option entries themselves are opaque to the reducer. -/
structure PanelOptions where
  section_title : String
  options : List String
deriving DecidableEq, Repr

/-- The card-panel state (`initialState` shape in cardPanelState.js). -/
structure CardPanelState where
  isOpen : Bool
  activeCardId : Option String
  activeCard : Option Card
  error : Option PanelError
  history : List String
  panelOptions : Option PanelOptions
deriving DecidableEq, Repr

/-- Embedding of `initialState` (cardPanelState.js). -/
def initialState : CardPanelState :=
  { isOpen := false
    activeCardId := none
    activeCard := none
    error := none
    history := []
    panelOptions := none }

/-- The trace events the reducer's TRACE_EVENT_RECEIVED case inspects;
other event types fall through unchanged. -/
inductive PanelTraceEvent where
  | OPEN_CARD (card_id : Option String)
  | OPTIONS_AVAILABLE (card_id : Option String) (section_title : Option String)
      (options : Option (List String))
  | OTHER_EVENT (type : String)
deriving DecidableEq, Repr

/-- The actions handled by `reduce` (cardPanelState.js). -/
inductive CardPanelAction where
  | TRACE_EVENT_RECEIVED (traceEvent : Option PanelTraceEvent)
  | CARD_RESOLVED (cardId : Option String) (card : Option Card)
      (error : Option PanelError)
  | CARD_PANEL_CLOSED
  | CARD_PANEL_BACK
deriving DecidableEq, Repr

/-- Embedding of `reduce` (cardPanelState.js).  The source copies the
state and mutates the copy; here each branch produces the corresponding
updated record.  Null and undefined are both modelled as `none` (the
source only compares them with strict equality against strings or tests
truthiness, where they behave alike). -/
def reduce (state : CardPanelState) (action : CardPanelAction) : CardPanelState :=
  let s := state
  match action with
  | CardPanelAction.TRACE_EVENT_RECEIVED te =>
    match te with
    | some (PanelTraceEvent.OPEN_CARD cardId) =>
      let s1 :=
        if jsTruthyStr s.activeCardId then
          match s.activeCardId with
          | some a => { s with history := s.history ++ [a] }
          | none => s
        else s
      { s1 with
        isOpen := true
        activeCardId := jsOrNull cardId
        activeCard := none
        error := none
        panelOptions := none }
    | some (PanelTraceEvent.OPTIONS_AVAILABLE card_id section_title opts) =>
      if jsTruthyStr card_id ∧ jsTruthyStr s.activeCardId ∧ card_id ≠ s.activeCardId then
        s
      else
        { s with
          panelOptions := some
            { section_title :=
                match section_title with
                | some t => if t = "" then "Modeled options" else t
                | none => "Modeled options"
              options := opts.getD [] } }
    | _ => s
  | CardPanelAction.CARD_RESOLVED cardId card error =>
    if s.activeCardId ≠ cardId then
      s
    else
      { s with
        isOpen := true
        activeCardId := jsOrNull cardId
        activeCard := card
        error := error }
  | CardPanelAction.CARD_PANEL_CLOSED =>
    { s with isOpen := false, panelOptions := none }
  | CardPanelAction.CARD_PANEL_BACK =>
    match s.history.getLast? with
    | some prev =>
      { s with
        history := s.history.dropLast
        isOpen := true
        activeCardId := jsOrNull (some prev)
        activeCard := none
        error := none
        panelOptions := none }
    | none =>
      { s with
        isOpen := false
        activeCardId := none
        activeCard := none
        error := none
        history := []
        panelOptions := none }

/-! ## Helper lemmas and concrete fixtures -/

theorem contains_iff (l : List String) (a : String) :
    l.contains a = true ↔ a ∈ l :=
  List.elem_iff

/-- Default diagnostic record used by the fixtures. -/
def exDiagnostic : Diagnostic :=
  { mode := DiagnosticMode.conversation, confidence := none }

/-- Fixture TurnState builder (HIGH scaffolding, TAP mode). -/
def mkTurnState (id : String) (aff : List String) (opts : List TraceOption)
    (hnt : Option Hint) (sl : Slots) : TurnState :=
  { turn_id := id
    scaffolding_level := ScaffoldingLevel.HIGH
    input_mode := InputMode.TAP
    affordances := aff
    options := opts
    hints := hnt
    slots := sl
    diagnostic := exDiagnostic }

/-- A slots record with nothing required. -/
def emptySlots : Slots :=
  { required := [], filled := [], selectors_present := [] }

/-- Fixture step builder. -/
def mkStep (id : String) (ty : EventType) (b a : TurnState) : TraceStep :=
  { step_id := id
    event := { type := ty, timestamp := "2026-01-28T10:00:00Z", payload := [] }
    before := b
    after := a
    notes := none }

/-- Fixture document builder. -/
def mkDoc (steps : List TraceStep) : TraceDocument :=
  { trace_version := "1.0"
    trace_id := "trace_ex"
    created_at := "2026-01-28T10:00:00Z"
    locale := "zh-CN"
    steps := steps }

/-- A slot-free option, structurally valid. -/
def exHealthyOption : TraceOption :=
  { option_id := "opt_ok"
    option_kind := some "FRAME"
    text_zh := none
    text_en := none
    frame_id := some "frame.base"
    required_slots := []
    tokens := []
    slot_selectors := [] }

/-- A healthy state: one option, no hints, nothing required. -/
def exHealthyState : TurnState :=
  mkTurnState "t0" ["what_can_i_say", "select_option"] [exHealthyOption]
    none emptySlots

/-! ## Claim theorems -/

/-- The three-way forward-path condition of the spec, over a TurnState:
its options list is non-empty, or some required, not-yet-filled slot name
(missing or empty in the filled record, per the exporter's truthiness) is
present in the executable-slots set `selectors_present`, or hints are
available and the open-hint affordance is present. -/
def forwardPathSpec (s : TurnState) : Prop :=
  s.options ≠ [] ∨
  (∃ r, r ∈ s.slots.required ∧ filledLookup s.slots.filled r = false ∧
    r ∈ s.slots.selectors_present) ∨
  (hintsAvailable s = true ∧ "open_hint" ∈ s.affordances)

theorem validateForwardPath_iff (s : TurnState) :
    (validateForwardPath s).hasPath = true ↔ forwardPathSpec s := by
  unfold validateForwardPath forwardPathSpec
  split_ifs with h1 h2 h3
  · simp only [Bool.not_eq_true', List.isEmpty_eq_false] at h1
    simp [h1]
  · simp only [Bool.and_eq_true, List.any_eq_true, List.mem_filter,
      Bool.not_eq_true', Bool.not_eq_false', List.isEmpty_eq_false,
      contains_iff] at h2
    obtain ⟨-, r, ⟨hr, hunf⟩, hsel⟩ := h2
    simp only [true_iff]
    exact Or.inr (Or.inl ⟨r, hr, hunf, hsel⟩)
  · simp only [Bool.and_eq_true, contains_iff] at h3
    simp only [true_iff]
    exact Or.inr (Or.inr h3)
  · simp only [Bool.not_eq_true', Bool.not_eq_false', List.isEmpty_eq_false,
      not_not, List.isEmpty_iff] at h1
    simp only [false_iff, not_or]
    refine ⟨by simp [h1], ?_, ?_⟩
    · rintro ⟨r, hr, hunf, hsel⟩
      apply h2
      simp only [Bool.and_eq_true, List.any_eq_true, List.mem_filter,
        Bool.not_eq_true', Bool.not_eq_false', List.isEmpty_eq_false,
        contains_iff]
      exact ⟨List.ne_nil_of_mem hr, r, ⟨hr, hunf⟩, hsel⟩
    · rintro ⟨hav, hmem⟩
      apply h3
      simp only [Bool.and_eq_true, contains_iff]
      exact ⟨hav, hmem⟩

/-- C1 (Gate A, forward-path guarantee): for a step of a document, the
capture-side forward-path check succeeds on the step's `after` state iff
the spec's three-way disjunction holds of that state (non-empty options,
a required unfilled slot in the executable-slots set, or available hints
with the open-hint affordance); and when all three disjuncts fail, Gate A
emits `DEAD_STATE_NO_FORWARD_PATH` tagged with that step's id, so Gate A
never passes such a state. -/
theorem gateA_forward_path_guarantee (doc : TraceDocument) (st : TraceStep)
    (h : st ∈ doc.steps) :
    ((validateForwardPath st.after).hasPath = true ↔ forwardPathSpec st.after) ∧
    ((validateForwardPath st.after).hasPath = false →
      ({ code := "DEAD_STATE_NO_FORWARD_PATH", tag := some st.step_id } : Violation)
        ∈ gateA doc) := by
  refine ⟨validateForwardPath_iff st.after, fun hfail => ?_⟩
  unfold gateA
  rw [List.mem_filterMap]
  exact ⟨st, h, by simp [hfail]⟩

/-- A dead after-state: no options, no executable slot, no hints. -/
def exDeadState : TurnState :=
  mkTurnState "t1" ["what_can_i_say"] [] none emptySlots

/-- A step ending in the dead state. -/
def exDeadStep : TraceStep :=
  mkStep "s1" EventType.END_TURN exHealthyState exDeadState

/-- A document holding only the dead step. -/
def exDeadDoc : TraceDocument :=
  mkDoc [exDeadStep]

/-- Witness for C1 at the concrete dead-state document. -/
theorem gateA_forward_path_guarantee_witness :
    exDeadStep ∈ exDeadDoc.steps ∧
    (((validateForwardPath exDeadStep.after).hasPath = true ↔
        forwardPathSpec exDeadStep.after) ∧
     ((validateForwardPath exDeadStep.after).hasPath = false →
       ({ code := "DEAD_STATE_NO_FORWARD_PATH", tag := some "s1" } : Violation)
         ∈ gateA exDeadDoc)) :=
  ⟨by decide, gateA_forward_path_guarantee exDeadDoc exDeadStep (by decide)⟩

/-- C2 (Gate E, no silent flattening): for an Option with non-empty
`required_slots`, the capture-side structure check succeeds iff its
tokens list is non-empty or its slot-selector map is non-empty; and when
it fails, Gate E emits `CONTRACT_OPTION_FLATTENED` tagged with the id of
any step whose after state carries the option. -/
theorem gateE_no_silent_flattening (o : TraceOption) (h : o.required_slots ≠ []) :
    ((validateOptionStructure o).valid = true ↔
      (o.tokens ≠ [] ∨ o.slot_selectors ≠ [])) ∧
    (∀ doc st, st ∈ doc.steps → o ∈ st.after.options →
      (validateOptionStructure o).valid = false →
      ({ code := "CONTRACT_OPTION_FLATTENED", tag := some st.step_id } : Violation)
        ∈ gateE doc) := by
  constructor
  · unfold validateOptionStructure
    split_ifs with h1 h2
    · exact absurd (List.isEmpty_iff.mp h1) h
    · simp only [Bool.not_eq_true', Bool.not_eq_false', List.isEmpty_iff,
        List.isEmpty_eq_false, Bool.and_eq_true] at h2
      simp [h2.1, h2.2]
    · simp only [Bool.not_eq_true', Bool.not_eq_false', List.isEmpty_iff,
        List.isEmpty_eq_false, Bool.and_eq_true, not_and] at h2
      simp only [true_iff]
      by_cases ht : o.tokens = []
      · exact Or.inr (h2 ht)
      · exact Or.inl ht
  · intro doc st hst ho hinv
    unfold gateE
    rw [List.mem_flatten]
    refine ⟨_, List.mem_map_of_mem _ hst, ?_⟩
    apply List.mem_append_left
    apply List.mem_append_left
    apply List.mem_append_right
    unfold stateOptionViolations
    rw [List.mem_filterMap]
    exact ⟨o, ho, by simp [hinv]⟩

/-- An option requiring the NAME slot with empty tokens and empty
slot-selector map: a flattened option. -/
def exFlatOption : TraceOption :=
  { option_id := "opt_name"
    option_kind := some "FRAME_WITH_SLOTS"
    text_zh := none
    text_en := none
    frame_id := some "frame.intro.name"
    required_slots := ["NAME"]
    tokens := []
    slot_selectors := [] }

/-- A state carrying the flattened option (the NAME slot itself has a
selector, so only the flattening violation is at stake). -/
def exFlatState : TurnState :=
  mkTurnState "t5" ["what_can_i_say", "select_option"] [exFlatOption] none
    { required := ["NAME"], filled := [], selectors_present := ["NAME"] }

/-- The step whose after state carries the flattened option. -/
def exFlatStep : TraceStep :=
  mkStep "s5" EventType.SYSTEM_NARROW exHealthyState exFlatState

/-- A document holding only the flattened-option step. -/
def exFlatDoc : TraceDocument :=
  mkDoc [exFlatStep]

/-- Witness for C2: the option with `required_slots = ["NAME"]`, empty
tokens and empty slot-selector map fails the check and yields
`CONTRACT_OPTION_FLATTENED`. -/
theorem gateE_no_silent_flattening_witness :
    exFlatOption.required_slots ≠ [] ∧
    exFlatStep ∈ exFlatDoc.steps ∧
    exFlatOption ∈ exFlatStep.after.options ∧
    (validateOptionStructure exFlatOption).valid = false ∧
    ({ code := "CONTRACT_OPTION_FLATTENED", tag := some "s5" } : Violation)
      ∈ gateE exFlatDoc := by
  refine ⟨by decide, by decide, by decide, by decide, ?_⟩
  exact (gateE_no_silent_flattening exFlatOption (by decide)).2 exFlatDoc exFlatStep
    (by decide) (by decide) (by decide)

/-- C3 (schema-failure atomicity): when the schema validator rejects a raw
document, the pipeline report is exactly one violation, coded
`TRACE_SCHEMA_INVALID` and carrying the path of the first offending
field — no semantic gate contributes anything to the report. -/
theorem schema_failure_atomicity (raw : RawDoc) (p : String)
    (h : schemaValidate raw = Except.error p) :
    runPipeline raw = [{ code := "TRACE_SCHEMA_INVALID", tag := some p }] := by
  unfold runPipeline
  rw [h]

/-- Witness for C3 at a concrete malformed document. -/
theorem schema_failure_atomicity_witness :
    schemaValidate (RawDoc.malformed "steps") = Except.error "steps" ∧
    runPipeline (RawDoc.malformed "steps") =
      [{ code := "TRACE_SCHEMA_INVALID", tag := some "steps" }] :=
  ⟨rfl, schema_failure_atomicity (RawDoc.malformed "steps") "steps" rfl⟩

/-- C4 (Gate B, modality-toggle preservation): a toggle step passes iff
`what_can_i_say` is present in both states' affordances and, when hints
were available before, `open_hint` is present after; a failing toggle
step makes Gate B emit `TOGGLE_AFFORDANCE_DROP` tagged with the step id;
and dropping `what_can_i_say` across the toggle puts
`TOGGLE_AFFORDANCE_DROP` into the full pipeline report no matter what the
other gates report. -/
theorem gateB_toggle_preservation (doc : TraceDocument) (st : TraceStep)
    (h1 : st ∈ doc.steps) (h2 : st.event.type = EventType.TOGGLE_INPUT_MODE) :
    (toggleCheck st = true ↔
      ("what_can_i_say" ∈ st.before.affordances ∧
       "what_can_i_say" ∈ st.after.affordances ∧
       (hintsAvailable st.before = true → "open_hint" ∈ st.after.affordances))) ∧
    (toggleCheck st = false →
      ({ code := "TOGGLE_AFFORDANCE_DROP", tag := some st.step_id } : Violation)
        ∈ gateB doc) ∧
    ("what_can_i_say" ∈ st.before.affordances →
     "what_can_i_say" ∉ st.after.affordances →
      ({ code := "TOGGLE_AFFORDANCE_DROP", tag := some st.step_id } : Violation)
        ∈ runPipeline (RawDoc.wellFormed doc)) := by
  have hiff : toggleCheck st = true ↔
      ("what_can_i_say" ∈ st.before.affordances ∧
       "what_can_i_say" ∈ st.after.affordances ∧
       (hintsAvailable st.before = true → "open_hint" ∈ st.after.affordances)) := by
    unfold toggleCheck
    simp only [Bool.and_eq_true, Bool.or_eq_true, Bool.not_eq_true',
      contains_iff, and_assoc]
    constructor
    · rintro ⟨hb, ha, hc⟩
      refine ⟨hb, ha, fun hav => ?_⟩
      rcases hc with hc | hc
      · exact absurd hav (by simp [hc])
      · exact hc
    · rintro ⟨hb, ha, hc⟩
      refine ⟨hb, ha, ?_⟩
      by_cases hav : hintsAvailable st.before = true
      · exact Or.inr (hc hav)
      · exact Or.inl (by simpa using hav)
  have hemit : toggleCheck st = false →
      ({ code := "TOGGLE_AFFORDANCE_DROP", tag := some st.step_id } : Violation)
        ∈ gateB doc := by
    intro hfail
    unfold gateB
    rw [List.mem_filterMap]
    exact ⟨st, h1, by simp [h2, hfail]⟩
  refine ⟨hiff, hemit, fun hbefore hafter => ?_⟩
  have hfail : toggleCheck st = false := by
    rcases hc : toggleCheck st with _ | _
    · rfl
    · exact absurd (hiff.mp hc).2.1 hafter
  have hmem := hemit hfail
  unfold runPipeline schemaValidate runGates
  apply List.mem_append_left
  apply List.mem_append_left
  apply List.mem_append_left
  apply List.mem_append_right
  exact hmem

/-- Before state of the toggle fixture: `what_can_i_say` present. -/
def exToggleBefore : TurnState :=
  mkTurnState "t2" ["what_can_i_say", "select_option"] [exHealthyOption]
    none emptySlots

/-- After state of the toggle fixture: `what_can_i_say` dropped. -/
def exToggleAfter : TurnState :=
  mkTurnState "t3" ["submit_response"] [exHealthyOption] none emptySlots

/-- The toggle step that drops `what_can_i_say`. -/
def exToggleStep : TraceStep :=
  mkStep "s2" EventType.TOGGLE_INPUT_MODE exToggleBefore exToggleAfter

/-- A document holding only the dropping toggle step. -/
def exToggleDoc : TraceDocument :=
  mkDoc [exToggleStep]

/-- Witness for C4 at the concrete dropping-toggle document. -/
theorem gateB_toggle_preservation_witness :
    exToggleStep ∈ exToggleDoc.steps ∧
    exToggleStep.event.type = EventType.TOGGLE_INPUT_MODE ∧
    "what_can_i_say" ∈ exToggleStep.before.affordances ∧
    "what_can_i_say" ∉ exToggleStep.after.affordances ∧
    ({ code := "TOGGLE_AFFORDANCE_DROP", tag := some "s2" } : Violation)
      ∈ runPipeline (RawDoc.wellFormed exToggleDoc) := by
  refine ⟨by decide, by decide, by decide, by decide, ?_⟩
  exact (gateB_toggle_preservation exToggleDoc exToggleStep (by decide)
    (by decide)).2.2 (by decide) (by decide)

/-- The recognized hint-effect keys named by the documentation — the
integration-kit README and the contract document both give "narrow",
"structure", "model" as the actionable effect keys, and the spec calls
them narrowing, structuring and modeling the answer (both spellings are
listed).  `validateHintStructure` never consults any such list: it only
tests that the effects record is non-empty. -/
def recognizedEffectKeys : List String :=
  ["narrow", "structure", "model", "narrowing", "structuring", "modeling"]

/-- The keys of a hint's payload effects record. -/
def hintEffectKeys (h : Hint) : List String :=
  match h.payload with
  | some p => (p.effects.getD []).map Prod.fst
  | none => []

/-- An available hint whose effects record carries only an unrecognized
key. -/
def exUnrecognizedHint : Hint :=
  { available := true
    step := some 0
    cascade_state_key := some "cascade_1"
    payload := some { effects := some [("sparkle", true)] } }

/-- C5 counterexample: an available hint whose effects record is
non-empty but contains no recognized effect key still passes the
capture-side hint check, so passing is not equivalent to the effects
record containing a recognized key, as the claim states. -/
theorem hint_check_ignores_recognized_keys :
    exUnrecognizedHint.available = true ∧
    hintEffectKeys exUnrecognizedHint = ["sparkle"] ∧
    "sparkle" ∉ recognizedEffectKeys ∧
    (validateHintStructure (some exUnrecognizedHint)).valid = true := by
  decide

/-- C5 amended (Gate D, effects part): for an available hint, the
capture-side check succeeds iff the payload is present and its effects
sub-record is present and non-empty — no recognized-key condition; and
when it fails, Gate D emits `HINT_NO_EFFECTS_BLOCK` tagged with the id of
any step whose after state carries the hint. -/
theorem gateD_hint_effects (hnt : Hint) (h : hnt.available = true) :
    ((validateHintStructure (some hnt)).valid = true ↔
      (∃ p, hnt.payload = some p ∧ ∃ eff, p.effects = some eff ∧ eff ≠ [])) ∧
    (∀ doc st, st ∈ doc.steps → st.after.hints = some hnt →
      (validateHintStructure (some hnt)).valid = false →
      ({ code := "HINT_NO_EFFECTS_BLOCK", tag := some st.step_id } : Violation)
        ∈ gateD doc) := by
  constructor
  · obtain ⟨av, stp, key, pl⟩ := hnt
    simp only [Hint.available] at h
    subst h
    cases pl with
    | none => simp [validateHintStructure]
    | some p =>
      obtain ⟨eff⟩ := p
      cases eff with
      | none => simp [validateHintStructure]
      | some l =>
        cases l with
        | nil => simp [validateHintStructure]
        | cons a as => simp [validateHintStructure]
  · intro doc st hst hhint hinv
    unfold gateD
    apply List.mem_append_left
    apply List.mem_append_left
    rw [List.mem_flatten]
    refine ⟨_, List.mem_map_of_mem _ hst, ?_⟩
    apply List.mem_append_right
    rw [hhint]
    simp [hinv]

/-- An available hint with an empty effects record. -/
def exEmptyEffectsHint : Hint :=
  { available := true
    step := some 0
    cascade_state_key := some "cascade_1"
    payload := some { effects := some [] } }

/-- An available hint with a narrowing effect. -/
def exNarrowHint : Hint :=
  { available := true
    step := some 0
    cascade_state_key := some "cascade_1"
    payload := some { effects := some [("narrow", true)] } }

/-- After state of the empty-effects fixture. -/
def exHintState : TurnState :=
  mkTurnState "t4" ["what_can_i_say", "open_hint"] [exHealthyOption]
    (some exEmptyEffectsHint) emptySlots

/-- The step whose after state carries the empty-effects hint. -/
def exHintStep : TraceStep :=
  mkStep "s3" EventType.OPEN_HINT exHealthyState exHintState

/-- A document holding only the empty-effects hint step. -/
def exHintDoc : TraceDocument :=
  mkDoc [exHintStep]

/-- Witness for the amended C5: an available hint with
`payload.effects = {}` fails the check and yields
`HINT_NO_EFFECTS_BLOCK`, while the same hint with
`effects = {"narrow": true}` passes. -/
theorem gateD_hint_effects_witness :
    exEmptyEffectsHint.available = true ∧
    ({ code := "HINT_NO_EFFECTS_BLOCK", tag := some "s3" } : Violation)
      ∈ gateD exHintDoc ∧
    (validateHintStructure (some exNarrowHint)).valid = true := by
  refine ⟨rfl, ?_, ?_⟩
  · exact (gateD_hint_effects exEmptyEffectsHint rfl).2 exHintDoc exHintStep
      (by decide) (by decide) (by decide)
  · exact (gateD_hint_effects exNarrowHint rfl).1.mpr
      ⟨_, rfl, _, rfl, by decide⟩

/-- The error codes of Gate 6 (no flattened options) as named by
TRACE_CONTRACT_v1.md: "Errors: CONTRACT_OPTION_FLATTENED,
CONTRACT_SLOT_UNEXECUTABLE" (also scenario S5: "Error code:
CONTRACT_SLOT_UNEXECUTABLE").  The integration-kit README's error table
lists the second abbreviated as `SLOT_UNEXECUTABLE`. -/
def gate6ErrorCodes : List String :=
  ["CONTRACT_OPTION_FLATTENED", "CONTRACT_SLOT_UNEXECUTABLE"]

/-- A state whose required JOB slot is unfilled and has no selector nor
any option covering it. -/
def exSlotState : TurnState :=
  mkTurnState "t6" ["what_can_i_say"] [] none
    { required := ["JOB"], filled := [], selectors_present := [] }

/-- The step whose after state carries the unexecutable slot. -/
def exSlotStep : TraceStep :=
  mkStep "s4" EventType.SYSTEM_NARROW exHealthyState exSlotState

/-- A document holding only the unexecutable-slot step. -/
def exSlotDoc : TraceDocument :=
  mkDoc [exSlotStep]

/-- C6 counterexample: on a concrete document with a required, unfilled,
uncoverable slot, the pipeline report carries the violation coded
`CONTRACT_SLOT_UNEXECUTABLE` — the identifier of the contract document —
and no violation coded `SLOT_UNEXECUTABLE`, so the violation does not use
exactly the identifier `SLOT_UNEXECUTABLE` as the claim states. -/
theorem slot_unexecutable_identifier_counterexample :
    ({ code := "CONTRACT_SLOT_UNEXECUTABLE", tag := some "s4" } : Violation)
      ∈ runPipeline (RawDoc.wellFormed exSlotDoc) ∧
    (runPipeline (RawDoc.wellFormed exSlotDoc)).filter
      (fun v => v.code == "SLOT_UNEXECUTABLE") = [] := by
  decide

/-- C6 amended (stable identifier for unexecutable slots): whenever a
state of some step has a required, not-yet-filled slot name that is
neither in the executable-slots set nor coverable by any option's
slot-selector map, Gate E reports the violation under the identifier
`CONTRACT_SLOT_UNEXECUTABLE`, which is one of the Gate 6 codes of
TRACE_CONTRACT_v1.md (the README error table abbreviates it to
`SLOT_UNEXECUTABLE`). -/
theorem gateE_slot_unexecutable_code (doc : TraceDocument) (st : TraceStep)
    (h1 : st ∈ doc.steps) (r : String)
    (h2 : r ∈ st.after.slots.required)
    (h3 : filledLookup st.after.slots.filled r = false)
    (h4 : slotExecutable st.after r = false) :
    ({ code := "CONTRACT_SLOT_UNEXECUTABLE", tag := some st.step_id } : Violation)
      ∈ gateE doc ∧
    "CONTRACT_SLOT_UNEXECUTABLE" ∈ gate6ErrorCodes := by
  refine ⟨?_, by decide⟩
  unfold gateE
  rw [List.mem_flatten]
  refine ⟨_, List.mem_map_of_mem _ h1, ?_⟩
  apply List.mem_append_right
  unfold stateSlotViolations
  rw [List.mem_filterMap]
  exact ⟨r, h2, by simp [h3, h4]⟩

/-- Witness for the amended C6 at the concrete unexecutable-slot
document. -/
theorem gateE_slot_unexecutable_code_witness :
    filledLookup exSlotStep.after.slots.filled "JOB" = false ∧
    slotExecutable exSlotStep.after "JOB" = false ∧
    ({ code := "CONTRACT_SLOT_UNEXECUTABLE", tag := some "s4" } : Violation)
      ∈ gateE exSlotDoc ∧
    "CONTRACT_SLOT_UNEXECUTABLE" ∈ gate6ErrorCodes := by
  have h := gateE_slot_unexecutable_code exSlotDoc exSlotStep (by decide) "JOB"
    (by decide) (by decide) (by decide)
  exact ⟨by decide, by decide, h.1, h.2⟩

/-- C7 (batch-runner exit status): the launcher's process exit status is
0 iff every document in the batch passes the schema gate and all five
semantic gates (its pipeline report is empty), and 1 iff some document
fails some gate. -/
theorem batch_exit_status (docs : List RawDoc) :
    (validateTracesExit docs = 0 ↔ ∀ d ∈ docs, runPipeline d = []) ∧
    (validateTracesExit docs = 1 ↔ ¬ ∀ d ∈ docs, runPipeline d = []) := by
  unfold validateTracesExit runTraceConformanceExit
  split_ifs with h <;>
    simp_all [List.all_eq_true, List.isEmpty_iff]

/-- Two independent evaluations of the pipeline on the same raw
document. -/
def runPipelineTwice (raw : RawDoc) : List Violation × List Violation :=
  (runPipeline raw, runPipeline raw)

/-- C8 (pipeline determinism): running the pipeline twice on the same
document yields identical violation lists, and a document's report
within a batch is independent of the other documents around it — the
pipeline is a pure function of its input with no shared state between
gates or documents. -/
theorem pipeline_deterministic (raw : RawDoc) (pre post : List RawDoc) :
    (runPipelineTwice raw).1 = (runPipelineTwice raw).2 ∧
    batchReport (pre ++ raw :: post) =
      batchReport pre ++ runPipeline raw :: batchReport post := by
  exact ⟨rfl, by simp [batchReport]⟩

/-- C9 (stale card resolutions are ignored): a CARD_RESOLVED action whose
payload cardId differs from the state's activeCardId leaves every field
of the card-panel state unchanged. -/
theorem stale_card_resolved_ignored (s : CardPanelState) (cardId : Option String)
    (card : Option Card) (err : Option PanelError)
    (h : cardId ≠ s.activeCardId) :
    (reduce s (CardPanelAction.CARD_RESOLVED cardId card err)).isOpen = s.isOpen ∧
    (reduce s (CardPanelAction.CARD_RESOLVED cardId card err)).activeCardId =
      s.activeCardId ∧
    (reduce s (CardPanelAction.CARD_RESOLVED cardId card err)).activeCard =
      s.activeCard ∧
    (reduce s (CardPanelAction.CARD_RESOLVED cardId card err)).error = s.error ∧
    (reduce s (CardPanelAction.CARD_RESOLVED cardId card err)).history = s.history ∧
    (reduce s (CardPanelAction.CARD_RESOLVED cardId card err)).panelOptions =
      s.panelOptions := by
  have hne : s.activeCardId ≠ cardId := fun e => h e.symm
  simp [reduce, hne]

/-- A panel state with card_a active and unresolved. -/
def exPanelState : CardPanelState :=
  { isOpen := true
    activeCardId := some "card_a"
    activeCard := none
    error := none
    history := []
    panelOptions := none }

/-- Witness for C9: a resolution for card_b arriving while card_a is
active changes nothing. -/
theorem stale_card_resolved_ignored_witness :
    (some "card_b" : Option String) ≠ exPanelState.activeCardId ∧
    ((reduce exPanelState (CardPanelAction.CARD_RESOLVED (some "card_b")
        (some { id := "card_b", title := some "Stale" }) none)).isOpen =
      exPanelState.isOpen ∧
     (reduce exPanelState (CardPanelAction.CARD_RESOLVED (some "card_b")
        (some { id := "card_b", title := some "Stale" }) none)).activeCardId =
      exPanelState.activeCardId ∧
     (reduce exPanelState (CardPanelAction.CARD_RESOLVED (some "card_b")
        (some { id := "card_b", title := some "Stale" }) none)).activeCard =
      exPanelState.activeCard ∧
     (reduce exPanelState (CardPanelAction.CARD_RESOLVED (some "card_b")
        (some { id := "card_b", title := some "Stale" }) none)).error =
      exPanelState.error ∧
     (reduce exPanelState (CardPanelAction.CARD_RESOLVED (some "card_b")
        (some { id := "card_b", title := some "Stale" }) none)).history =
      exPanelState.history ∧
     (reduce exPanelState (CardPanelAction.CARD_RESOLVED (some "card_b")
        (some { id := "card_b", title := some "Stale" }) none)).panelOptions =
      exPanelState.panelOptions) :=
  ⟨by decide,
   stale_card_resolved_ignored exPanelState (some "card_b")
     (some { id := "card_b", title := some "Stale" }) none (by decide)⟩

/-- C10 (affordance construction): buildAffordances always returns
`what_can_i_say`; returns `open_hint` iff hasHints; returns
`select_option` iff TAP mode with options; returns `submit_response` iff
TYPE mode; and returns nothing else. -/
theorem buildAffordances_characterization (config : AffordanceConfig) :
    "what_can_i_say" ∈ buildAffordances config ∧
    ("open_hint" ∈ buildAffordances config ↔ config.hasHints = true) ∧
    ("select_option" ∈ buildAffordances config ↔
      (config.inputMode = InputMode.TAP ∧ config.hasOptions = true)) ∧
    ("submit_response" ∈ buildAffordances config ↔
      config.inputMode = InputMode.TYPE) ∧
    (∀ a ∈ buildAffordances config,
      a = "what_can_i_say" ∨ a = "open_hint" ∨ a = "select_option" ∨
      a = "submit_response") := by
  obtain ⟨ho, hh, m, c⟩ := config
  cases m <;> cases ho <;> cases hh <;> cases c <;> decide
